import Mathlib

/-!
Shallow embedding of the cesium-sensor geometry library and proofs of its
specification claims.

The library is a set of parametric mesh generators (conic, rectangle and SAR
sensor volumes, rings) together with a flat-array serialization contract
(pack and unpack) used to ship build options across a worker boundary.

Modelling conventions, used consistently below:

Numbers.  JavaScript numbers are modelled as exact rationals.  Every
operation that any settled claim depends on (addition, subtraction,
multiplication, division by nonzero constants, max, comparisons, the minus
one sentinel test) is exact on IEEE doubles for the inputs exercised, so the
rational model is faithful there.  Trigonometric position values are never
needed by a claim and are not modelled; bounding-sphere radii are modelled
by their squares (the source stores Math.sqrt of the squared quantity, and
squaring is injective on nonnegative reals, so statements about the radius
translate to statements about the stored square).

Arrays.  A pack function writes exactly packedLength numbers starting at a
given index; it is modelled as the list of written values, in order.  An
unpack function reads consecutive entries starting at a given index; reads
are modelled with List.getD (all reads exercised by the theorems are in
bounds, where getD agrees with the source).  JavaScript typed arrays have a
fixed length and silently drop out-of-bounds writes; an index buffer is
therefore modelled as the list of attempted writes truncated to the
allocated length.

Exceptions.  Constructors that can throw DeveloperError return Except
values; the error constructors name the condition that the corresponding
throw site reports.  Reading an undeclared identifier in a strict-mode ES
module throws ReferenceError; the one code path that does this is modelled
as an Except error as well.

The two Conic variants.  The file Source/Core/ConicSensorGeometry.js
contains two near-identical copies of the ConicSensorGeometry module.  Both
agree on the constructor, packedLength, pack and unpack, which are embedded
once.  Their createGeometry bodies differ (index allocation, z placement,
bounding-sphere center) and are embedded separately as createGeometryA
(first copy) and createGeometryB (second copy).
-/

/-- Number of iterations of the JavaScript loop
for (i = 0; i lt b; i++) over a numeric bound b, namely the number of
naturals strictly below b. -/
def jsCountLt (b : ℚ) : ℕ := ⌈b⌉₊

/-- Length of a JavaScript typed array allocated with the given numeric
size.  All sizes exercised by the theorems below are nonnegative integers,
where the floor is exact. -/
def jsArrayLen (q : ℚ) : ℕ := (Int.floor q).toNat

namespace CesiumMath

/-- Rational standing in for the IEEE double Math.PI
(884279719003555 times 2 to the minus 48).  No settled claim depends on its
numeric value beyond it being a fixed constant different from small
integers. -/
def PI : ℚ := 884279719003555 / 281474976710656

/-- CesiumMath.TWO_PI; doubling a double is exact. -/
def TWO_PI : ℚ := 2 * PI

/-- CesiumMath.PI_OVER_SIX (model value; the source divides the double
Math.PI by 6). -/
def PI_OVER_SIX : ℚ := PI / 6

/-- CesiumMath.PI_OVER_FOUR (model value). -/
def PI_OVER_FOUR : ℚ := PI / 4

end CesiumMath

namespace GeometryOffsetAttribute

def NONE : ℚ := 0

def TOP : ℚ := 1

def ALL : ℚ := 2

end GeometryOffsetAttribute

/-- Vertex attribute selection flags.  This is the host library class
VertexFormat (an external dependency of the reviewed code); field order
follows its documented pack order. -/
structure VertexFormat where
  position : Bool
  normal : Bool
  st : Bool
  bitangent : Bool
  tangent : Bool
  color : Bool
deriving DecidableEq

namespace VertexFormat

/-- VertexFormat.packedLength of the host library. -/
def packedLength : ℕ := 6

/-- VertexFormat.DEFAULT of the host library: position, normal and st. -/
def DEFAULT : VertexFormat :=
  { position := true, normal := true, st := true,
    bitangent := false, tangent := false, color := false }

/-- VertexFormat.POSITION_ONLY of the host library. -/
def POSITION_ONLY : VertexFormat :=
  { position := true, normal := false, st := false,
    bitangent := false, tangent := false, color := false }

/-- The host library packs each flag as 1.0 or 0.0, in field order. -/
def pack (v : VertexFormat) : List ℚ :=
  [ if v.position then 1 else 0,
    if v.normal then 1 else 0,
    if v.st then 1 else 0,
    if v.bitangent then 1 else 0,
    if v.tangent then 1 else 0,
    if v.color then 1 else 0 ]

/-- The host library unpacks each flag by comparing the entry with 1.0. -/
def unpack (a : List ℚ) (startingIndex : ℕ) : VertexFormat :=
  { position := a.getD startingIndex 0 = 1,
    normal := a.getD (startingIndex + 1) 0 = 1,
    st := a.getD (startingIndex + 2) 0 = 1,
    bitangent := a.getD (startingIndex + 3) 0 = 1,
    tangent := a.getD (startingIndex + 4) 0 = 1,
    color := a.getD (startingIndex + 5) 0 = 1 }

theorem unpack_pack (v : VertexFormat) (rest : List ℚ) :
    unpack (pack v ++ rest) 0 = v := by
  cases v with
  | mk p n s b t c =>
    cases p <;> cases n <;> cases s <;> cases b <;> cases t <;> cases c <;>
      simp [pack, unpack, List.getD]

end VertexFormat

namespace HilbertOrder

/-!
Embedding of Source/Core/HilbertOrder.js.

The source encode loop is
for (s = n / 2; s greater than 0; s = s / 2) with floating division, so s
runs through the powers of two n/2, ..., 1 and then through fractions below
one; in the fractional iterations the mask p.x band s is zero (the band
operator truncates s to zero), so the accumulated index is unchanged and
only the scratch point is permuted.  The embedding therefore runs exactly
the level iterations with s a power of two, recursing on the exponent.

In the decode loop the variable t holds index divided by a power of four
(exact in binary floating point for the ranges involved) and is only read
through 32-bit truncating conversions, which for nonnegative values is the
floor; iterated floors of quarters agree with natural division, so t is
modelled as a natural with t / 4 at each step.
-/

/-- The rotate helper: no-op when ry is nonzero, otherwise an optional
point reflection (when rx = 1) followed by a coordinate swap; the
reflection and the swap of the source are composed into one branch each
here. -/
def rotate (n : ℕ) (p : ℕ × ℕ) (rx ry : ℕ) : ℕ × ℕ :=
  if ry ≠ 0 then p
  else if rx = 1 then (n - 1 - p.2, n - 1 - p.1)
  else (p.2, p.1)

theorem rotate_of_ry_ne {n : ℕ} {p : ℕ × ℕ} {rx ry : ℕ} (h : ry ≠ 0) :
    rotate n p rx ry = p := by
  unfold rotate; rw [if_pos h]

theorem rotate_of_flip {n : ℕ} {p : ℕ × ℕ} :
    rotate n p 1 0 = (n - 1 - p.2, n - 1 - p.1) := by
  unfold rotate; norm_num

theorem rotate_of_swap {n : ℕ} {p : ℕ × ℕ} {rx : ℕ} (h : rx ≠ 1) :
    rotate n p rx 0 = (p.2, p.1) := by
  unfold rotate; simp [h]

/-- The encode2D loop; the fuel argument k means the current mask is
s = 2 ^ k and k + 1 iterations remain (counting the current one).  The
source computes rx = (p.x band s) greater than 0 question 1 colon 0, then
adds ((3 rx) xor ry) s s to the index and rotates the point. -/
def encodeAux : ℕ → ℕ → ℕ × ℕ → ℕ → ℕ
  | 0, _, _, idx => idx
  | k + 1, n, p, idx =>
    encodeAux k n
      (rotate n p (if 0 < p.1 &&& 2 ^ k then 1 else 0)
        (if 0 < p.2 &&& 2 ^ k then 1 else 0))
      (idx +
        ((3 * (if 0 < p.1 &&& 2 ^ k then 1 else 0)) ^^^
            (if 0 < p.2 &&& 2 ^ k then 1 else 0)) * 2 ^ k * 2 ^ k)

/-- HilbertOrder.encode2D. -/
def encode2D (level x y : ℕ) : ℕ :=
  encodeAux level (2 ^ level) (x, y) 0

/-- One iteration of the decode2D loop at scale s with current quotient t:
rx = 1 band (t / 2), ry = 1 band (t xor rx), rotate, then shift the point by
s rx and s ry. -/
def decodeStep (s t : ℕ) (p : ℕ × ℕ) : ℕ × ℕ :=
  ((rotate s p (1 &&& (t / 2)) (1 &&& (t ^^^ (1 &&& (t / 2))))).1 +
      s * (1 &&& (t / 2)),
   (rotate s p (1 &&& (t / 2)) (1 &&& (t ^^^ (1 &&& (t / 2))))).2 +
      s * (1 &&& (t ^^^ (1 &&& (t / 2)))))

theorem decodeStep_eval (s t : ℕ) (p : ℕ × ℕ) (rx ry : ℕ)
    (hry : 1 &&& (t ^^^ (1 &&& (t / 2))) = ry) (hrx : 1 &&& (t / 2) = rx) :
    decodeStep s t p
      = ((rotate s p rx ry).1 + s * rx, (rotate s p rx ry).2 + s * ry) := by
  unfold decodeStep
  rw [hry, hrx]

/-- The decode2D loop; one step per doubling of s from 1 to 2 ^ level. -/
def decodeAux : ℕ → ℕ → ℕ → ℕ × ℕ → ℕ × ℕ
  | 0, _, _, p => p
  | k + 1, s, t, p => decodeAux k (s * 2) (t / 4) (decodeStep s t p)

/-- HilbertOrder.decode2D. -/
def decode2D (level index : ℕ) : ℕ × ℕ :=
  decodeAux level 1 index (0, 0)

/-! Round-trip proof.  The encode loop passes the full grid size n to every
rotate call while the masks shrink, whereas the decode loop passes the
current scale s; the bridge is that, modulo the current mask, a reflection
at a multiple of the mask agrees with a reflection at the mask itself.  The
proof is by induction on the level: one encode iteration splits off the top
quadrant digit, the congruence lemmas reduce the remaining iterations to
the next lower level, and the matching decode iteration is peeled off the
top with decodeAux_last. -/

theorem if_and_two_pow (x k : ℕ) :
    (if 0 < x &&& 2 ^ k then 1 else 0) = x / 2 ^ k % 2 := by
  rcases Nat.mod_two_eq_zero_or_one (x / 2 ^ k) with h | h
  · have hb : x.testBit k = false := by
      rw [Nat.testBit_to_div_mod]; simp [h]
    rw [Nat.and_two_pow, hb]
    simp [h]
  · have hb : x.testBit k = true := by
      rw [Nat.testBit_to_div_mod]; simp [h]
    rw [Nat.and_two_pow, hb]
    have hpos : 0 < 2 ^ k := pow_pos (by norm_num) k
    simp [h, hpos]

theorem div_in_mod (a b c : ℕ) : a / b % c = a % (b * c) / b :=
  (Nat.mod_mul_right_div_self a b c).symm

theorem div_pow_mod_two (x k : ℕ) : x / 2 ^ k % 2 = x % 2 ^ (k + 1) / 2 ^ k := by
  rw [div_in_mod, pow_succ]

theorem one_and_eq_mod_two (x : ℕ) : 1 &&& x = x % 2 := by
  rw [Nat.land_comm, Nat.and_one_is_mod]

theorem mod_two_toNat_testBit (x : ℕ) : x % 2 = (x.testBit 0).toNat := by
  rcases Nat.mod_two_eq_zero_or_one x with hz | hz <;> simp [Nat.testBit_zero, hz]

theorem xor_mod_two_congr {t u : ℕ} (h : t % 2 = u % 2) (r : ℕ) :
    (t ^^^ r) % 2 = (u ^^^ r) % 2 := by
  rw [mod_two_toNat_testBit, mod_two_toNat_testBit, Nat.testBit_xor, Nat.testBit_xor]
  have ht : t.testBit 0 = u.testBit 0 := by
    rw [Nat.testBit_zero, Nat.testBit_zero, h]
  rw [ht]

theorem rotate_lt {n : ℕ} {p : ℕ × ℕ} (h1 : p.1 < n) (h2 : p.2 < n) (rx ry : ℕ) :
    (rotate n p rx ry).1 < n ∧ (rotate n p rx ry).2 < n := by
  unfold rotate
  split_ifs
  · exact ⟨h1, h2⟩
  · exact ⟨by omega, by omega⟩
  · exact ⟨h2, h1⟩

theorem encodeAux_acc (k : ℕ) :
    ∀ (n : ℕ) (p : ℕ × ℕ) (idx : ℕ),
      encodeAux k n p idx = idx + encodeAux k n p 0 := by
  induction k with
  | zero => intro n p idx; simp [encodeAux]
  | succ k ih =>
    intro n p idx
    rw [encodeAux, encodeAux, ih, ih _ _ (0 + _)]
    omega

/-- Reflection congruence: reflecting y inside a box of size n that is a
multiple of s agrees, modulo s, with reflecting inside a box of size s. -/
theorem flip_mod_small {y s n : ℕ} (hdvd : s ∣ n) (hyn : y < n) (hys : y < s) :
    (n - 1 - y) % s = s - 1 - y := by
  have hmn : n - 1 - y ≡ s - 1 - y [MOD s] := by
    have hn : (n - 1 - y) + (y + 1) ≡ (s - 1 - y) + (y + 1) [MOD s] := by
      have e1 : (n - 1 - y) + (y + 1) = n := by omega
      have e2 : (s - 1 - y) + (y + 1) = s := by omega
      rw [e1, e2]
      exact (Nat.modEq_zero_iff_dvd.2 hdvd).trans (Nat.modEq_zero_iff_dvd.2 dvd_rfl).symm
    exact Nat.ModEq.add_right_cancel (Nat.ModEq.refl (y + 1)) hn
  calc (n - 1 - y) % s = (s - 1 - y) % s := hmn
    _ = s - 1 - y := Nat.mod_eq_of_lt (by omega)

/-- The encode loop reads its point only modulo the current mask, and its
size argument only through divisibility by the mask. -/
theorem encodeAux_congr :
    ∀ (k n m : ℕ) (p q : ℕ × ℕ) (idx : ℕ),
      2 ^ k ∣ n → 2 ^ k ∣ m →
      p.1 < n → p.2 < n → q.1 < m → q.2 < m →
      p.1 % 2 ^ k = q.1 % 2 ^ k → p.2 % 2 ^ k = q.2 % 2 ^ k →
      encodeAux k n p idx = encodeAux k m q idx := by
  intro k
  induction k with
  | zero => intro n m p q idx _ _ _ _ _ _ _ _; rfl
  | succ k ih =>
    intro n m p q idx hn hm hp1 hp2 hq1 hq2 h1 h2
    have hdk : (2:ℕ) ^ k ∣ 2 ^ (k + 1) := pow_dvd_pow 2 (Nat.le_succ k)
    have hkn : (2:ℕ) ^ k ∣ n := hdk.trans hn
    have hkm : (2:ℕ) ^ k ∣ m := hdk.trans hm
    have h1k : p.1 % 2 ^ k = q.1 % 2 ^ k := by
      rw [← Nat.mod_mod_of_dvd p.1 hdk, ← Nat.mod_mod_of_dvd q.1 hdk, h1]
    have h2k : p.2 % 2 ^ k = q.2 % 2 ^ k := by
      rw [← Nat.mod_mod_of_dvd p.2 hdk, ← Nat.mod_mod_of_dvd q.2 hdk, h2]
    have hrx : (if 0 < p.1 &&& 2 ^ k then 1 else 0)
        = (if 0 < q.1 &&& 2 ^ k then (1:ℕ) else 0) := by
      rw [if_and_two_pow, if_and_two_pow, div_pow_mod_two, div_pow_mod_two, h1]
    have hry : (if 0 < p.2 &&& 2 ^ k then 1 else 0)
        = (if 0 < q.2 &&& 2 ^ k then (1:ℕ) else 0) := by
      rw [if_and_two_pow, if_and_two_pow, div_pow_mod_two, div_pow_mod_two, h2]
    rw [encodeAux, encodeAux, ← hrx, ← hry]
    set rx := (if 0 < p.1 &&& 2 ^ k then (1:ℕ) else 0) with hrxd
    set ry := (if 0 < p.2 &&& 2 ^ k then (1:ℕ) else 0) with hryd
    have hRp := rotate_lt hp1 hp2 rx ry
    have hRq := rotate_lt hq1 hq2 rx ry
    apply ih n m _ _ _ hkn hkm hRp.1 hRp.2 hRq.1 hRq.2
    · -- first components agree modulo 2 ^ k
      by_cases hy : ry ≠ 0
      · simp only [rotate, if_pos hy]; exact h1k
      · simp only [rotate, if_neg hy]
        by_cases hx : rx = 1
        · simp only [if_pos hx]
          have en : ((n - 1 - p.2) + (p.2 + 1)) ≡ ((m - 1 - q.2) + (q.2 + 1)) [MOD 2 ^ k] := by
            have e1 : (n - 1 - p.2) + (p.2 + 1) = n := by omega
            have e2 : (m - 1 - q.2) + (q.2 + 1) = m := by omega
            rw [e1, e2]
            exact (Nat.modEq_zero_iff_dvd.2 hkn).trans (Nat.modEq_zero_iff_dvd.2 hkm).symm
          exact Nat.ModEq.add_right_cancel ((Nat.ModEq.add_right 1) h2k) en
        · simp only [if_neg hx]; exact h2k
    · -- second components agree modulo 2 ^ k
      by_cases hy : ry ≠ 0
      · simp only [rotate, if_pos hy]; exact h2k
      · simp only [rotate, if_neg hy]
        by_cases hx : rx = 1
        · simp only [if_pos hx]
          have en : ((n - 1 - p.1) + (p.1 + 1)) ≡ ((m - 1 - q.1) + (q.1 + 1)) [MOD 2 ^ k] := by
            have e1 : (n - 1 - p.1) + (p.1 + 1) = n := by omega
            have e2 : (m - 1 - q.1) + (q.1 + 1) = m := by omega
            rw [e1, e2]
            exact (Nat.modEq_zero_iff_dvd.2 hkn).trans (Nat.modEq_zero_iff_dvd.2 hkm).symm
          exact Nat.ModEq.add_right_cancel ((Nat.ModEq.add_right 1) h1k) en
        · simp only [if_neg hx]; exact h1k

/-- The last iteration of the decode loop, peeled off the top. -/
theorem decodeAux_last (k : ℕ) :
    ∀ (s t : ℕ) (p : ℕ × ℕ),
      decodeAux (k + 1) s t p = decodeStep (2 ^ k * s) (t / 4 ^ k) (decodeAux k s t p) := by
  induction k with
  | zero =>
    intro s t p
    simp [decodeAux, pow_zero, one_mul, Nat.div_one]
  | succ k ih =>
    intro s t p
    rw [decodeAux]
    rw [ih]
    have e1 : 2 ^ k * (s * 2) = 2 ^ (k + 1) * s := by ring
    have e2 : t / 4 / 4 ^ k = t / 4 ^ (k + 1) := by
      rw [Nat.div_div_eq_div_mul, ← pow_succ']
    rw [e1, e2]
    rfl

/-- The decode loop reads its index argument only modulo 4 ^ fuel. -/
theorem decodeAux_congr :
    ∀ (k s : ℕ) (p : ℕ × ℕ) (t u : ℕ),
      t % 4 ^ k = u % 4 ^ k → decodeAux k s t p = decodeAux k s u p := by
  intro k
  induction k with
  | zero => intro s p t u _; rfl
  | succ k ih =>
    intro s p t u h
    have h4 : (4:ℕ) ∣ 4 ^ (k + 1) := dvd_pow_self 4 (Nat.succ_ne_zero k)
    have h4m : t % 4 = u % 4 := by
      rw [← Nat.mod_mod_of_dvd t h4, ← Nat.mod_mod_of_dvd u h4, h]
    have h2m : t % 2 = u % 2 := by
      have h2 : (2:ℕ) ∣ 4 := by norm_num
      rw [← Nat.mod_mod_of_dvd t (h2.trans h4), ← Nat.mod_mod_of_dvd u (h2.trans h4), h]
    have hrx : 1 &&& (t / 2) = 1 &&& (u / 2) := by
      rw [one_and_eq_mod_two, one_and_eq_mod_two, div_in_mod, div_in_mod]
      norm_num [h4m]
    have hry : 1 &&& (t ^^^ (1 &&& (t / 2))) = 1 &&& (u ^^^ (1 &&& (u / 2))) := by
      rw [hrx, one_and_eq_mod_two (t ^^^ (1 &&& (u / 2))),
        one_and_eq_mod_two (u ^^^ (1 &&& (u / 2)))]
      exact xor_mod_two_congr h2m _
    have hstep : decodeStep s t p = decodeStep s u p := by
      unfold decodeStep
      rw [hry, hrx]
    rw [decodeAux, decodeAux, hstep]
    apply ih
    rw [div_in_mod, div_in_mod, ← pow_succ', h]

/-- Round-trip law of the Hilbert curve helpers, for every level: decoding
the encoded index returns the input point, and the index is below
4 ^ level. -/
theorem decode2D_encode2D :
    ∀ (level x y : ℕ), x < 2 ^ level → y < 2 ^ level →
      decode2D level (encode2D level x y) = (x, y) ∧
        encode2D level x y < 4 ^ level := by
  intro level
  induction level with
  | zero =>
    intro x y hx hy
    have hx0 : x = 0 := by omega
    have hy0 : y = 0 := by omega
    subst hx0; subst hy0
    exact ⟨rfl, by norm_num [encode2D, encodeAux]⟩
  | succ k ih =>
    intro x y hx hy
    have hs0 : 0 < 2 ^ k := pow_pos (by norm_num) k
    have hn2 : (2:ℕ) ^ (k + 1) = 2 ^ k * 2 := pow_succ 2 k
    have hxd : x / 2 ^ k < 2 := Nat.div_lt_of_lt_mul (hn2 ▸ hx)
    have hyd : y / 2 ^ k < 2 := Nat.div_lt_of_lt_mul (hn2 ▸ hy)
    have hbx := Nat.mod_add_div x (2 ^ k)
    have hby := Nat.mod_add_div y (2 ^ k)
    have hxm : x % 2 ^ k < 2 ^ k := Nat.mod_lt _ hs0
    have hym : y % 2 ^ k < 2 ^ k := Nat.mod_lt _ hs0
    -- digit extraction in the first encode iteration
    have hdx : (if 0 < x &&& 2 ^ k then 1 else 0) = x / 2 ^ k := by
      rw [if_and_two_pow]; exact Nat.mod_eq_of_lt hxd
    have hdy : (if 0 < y &&& 2 ^ k then 1 else 0) = y / 2 ^ k := by
      rw [if_and_two_pow]; exact Nat.mod_eq_of_lt hyd
    have hRlt := rotate_lt (p := (x, y)) hx hy (x / 2 ^ k) (y / 2 ^ k)
    -- one encode iteration, rewritten through the congruence lemmas
    have henc : encode2D (k + 1) x y
        = ((3 * (x / 2 ^ k)) ^^^ (y / 2 ^ k)) * 4 ^ k
          + encode2D k
              ((rotate (2 ^ (k + 1)) (x, y) (x / 2 ^ k) (y / 2 ^ k)).1 % 2 ^ k)
              ((rotate (2 ^ (k + 1)) (x, y) (x / 2 ^ k) (y / 2 ^ k)).2 % 2 ^ k) := by
      show encodeAux (k + 1) (2 ^ (k + 1)) (x, y) 0 = _
      rw [encodeAux]
      simp only [hdx, hdy]
      rw [encodeAux_acc]
      have hcongr : encodeAux k (2 ^ (k + 1))
            (rotate (2 ^ (k + 1)) (x, y) (x / 2 ^ k) (y / 2 ^ k)) 0
          = encodeAux k (2 ^ k)
              ((rotate (2 ^ (k + 1)) (x, y) (x / 2 ^ k) (y / 2 ^ k)).1 % 2 ^ k,
               (rotate (2 ^ (k + 1)) (x, y) (x / 2 ^ k) (y / 2 ^ k)).2 % 2 ^ k) 0 := by
        apply encodeAux_congr k (2 ^ (k + 1)) (2 ^ k) _ _ 0
          (pow_dvd_pow 2 (Nat.le_succ k)) dvd_rfl hRlt.1 hRlt.2
          (Nat.mod_lt _ hs0) (Nat.mod_lt _ hs0)
        · exact (Nat.mod_mod_of_dvd _ dvd_rfl).symm
        · exact (Nat.mod_mod_of_dvd _ dvd_rfl).symm
      rw [hcongr, zero_add, mul_assoc]
      have h44 : (2:ℕ) ^ k * 2 ^ k = 4 ^ k := by
        rw [← mul_pow]; norm_num
      rw [h44]
      rfl
    -- decode of a number with top digit qv and remainder ev
    have hdecsplit : ∀ qv ev : ℕ, ev < 4 ^ k →
        decodeAux (k + 1) 1 (qv * 4 ^ k + ev) (0, 0)
          = decodeStep (2 ^ k) qv (decode2D k ev) := by
      intro qv ev hev
      rw [decodeAux_last]
      have hswap : qv * 4 ^ k + ev = ev + 4 ^ k * qv := by ring
      have hu : (qv * 4 ^ k + ev) / 4 ^ k = qv := by
        rw [hswap, Nat.add_mul_div_left _ _ (pow_pos (by norm_num) k),
          Nat.div_eq_of_lt hev, zero_add]
      have hm : decodeAux k 1 (qv * 4 ^ k + ev) (0, 0) = decodeAux k 1 ev (0, 0) := by
        apply decodeAux_congr
        rw [hswap, Nat.add_mul_mod_self_left]
      rw [hu, hm, mul_one]
      rfl
    obtain ⟨hdec, hlt⟩ := ih
      ((rotate (2 ^ (k + 1)) (x, y) (x / 2 ^ k) (y / 2 ^ k)).1 % 2 ^ k)
      ((rotate (2 ^ (k + 1)) (x, y) (x / 2 ^ k) (y / 2 ^ k)).2 % 2 ^ k)
      (Nat.mod_lt _ hs0) (Nat.mod_lt _ hs0)
    have hx2 : x / 2 ^ k = 0 ∨ x / 2 ^ k = 1 := by omega
    have hy2 : y / 2 ^ k = 0 ∨ y / 2 ^ k = 1 := by omega
    have hq3 : (3 * (x / 2 ^ k)) ^^^ (y / 2 ^ k) ≤ 3 := by
      rcases hx2 with h1 | h1 <;> rcases hy2 with h2 | h2 <;> rw [h1, h2] <;> decide
    have hrange : encode2D (k + 1) x y < 4 ^ (k + 1) := by
      rw [henc]
      calc ((3 * (x / 2 ^ k)) ^^^ (y / 2 ^ k)) * 4 ^ k + _
          < ((3 * (x / 2 ^ k)) ^^^ (y / 2 ^ k)) * 4 ^ k + 4 ^ k :=
            Nat.add_lt_add_left hlt _
        _ = (((3 * (x / 2 ^ k)) ^^^ (y / 2 ^ k)) + 1) * 4 ^ k := by ring
        _ ≤ 4 * 4 ^ k := Nat.mul_le_mul_right _ (by omega)
        _ = 4 ^ (k + 1) := (pow_succ' 4 k).symm
    refine ⟨?_, hrange⟩
    have hgoal1 : decode2D (k + 1) (encode2D (k + 1) x y)
        = decodeStep (2 ^ k) ((3 * (x / 2 ^ k)) ^^^ (y / 2 ^ k))
            ((rotate (2 ^ (k + 1)) (x, y) (x / 2 ^ k) (y / 2 ^ k)).1 % 2 ^ k,
             (rotate (2 ^ (k + 1)) (x, y) (x / 2 ^ k) (y / 2 ^ k)).2 % 2 ^ k) := by
      rw [henc]
      show decodeAux (k + 1) 1 _ (0, 0) = _
      rw [hdecsplit _ _ hlt]
      exact congrArg _ hdec
    rw [hgoal1]
    have hdvd : (2:ℕ) ^ k ∣ 2 ^ (k + 1) := pow_dvd_pow 2 (Nat.le_succ k)
    rcases hx2 with h1 | h1 <;> rcases hy2 with h2 | h2 <;>
      rw [h1] at hbx <;> rw [h2] at hby <;> rw [h1, h2]
    · -- both top digits zero: quadrant 0, pure swap at both levels
      rw [show (3 * 0) ^^^ 0 = 0 from by decide,
        rotate_of_swap (n := 2 ^ (k + 1)) (by decide),
        decodeStep_eval _ _ _ 0 0 (by decide) (by decide),
        rotate_of_swap (by decide)]
      dsimp only
      simp only [Prod.mk.injEq]
      constructor <;> omega
    · -- x digit zero, y digit one: quadrant 1, no rotation, shift y
      rw [show (3 * 0) ^^^ 1 = 1 from by decide,
        rotate_of_ry_ne (n := 2 ^ (k + 1)) (by decide),
        decodeStep_eval _ _ _ 0 1 (by decide) (by decide),
        rotate_of_ry_ne (by decide)]
      dsimp only
      simp only [Prod.mk.injEq]
      constructor <;> omega
    · -- x digit one, y digit zero: quadrant 3, reflection at both levels
      rw [show (3 * 1) ^^^ 0 = 3 from by decide,
        rotate_of_flip (n := 2 ^ (k + 1)),
        decodeStep_eval _ _ _ 1 0 (by decide) (by decide),
        rotate_of_flip]
      dsimp only
      have hyl : y < 2 ^ k := by omega
      have hflipy : (2 ^ (k + 1) - 1 - y) % 2 ^ k = 2 ^ k - 1 - y :=
        flip_mod_small hdvd (by omega) hyl
      have hflipx : (2 ^ (k + 1) - 1 - x) % 2 ^ k = 2 ^ (k + 1) - 1 - x :=
        Nat.mod_eq_of_lt (by omega)
      rw [hflipy, hflipx]
      simp only [Prod.mk.injEq]
      constructor <;> omega
    · -- both top digits one: quadrant 2, no rotation, shift both
      rw [show (3 * 1) ^^^ 1 = 2 from by decide,
        rotate_of_ry_ne (n := 2 ^ (k + 1)) (by decide),
        decodeStep_eval _ _ _ 1 1 (by decide) (by decide),
        rotate_of_ry_ne (by decide)]
      dsimp only
      simp only [Prod.mk.injEq]
      constructor <;> omega

end HilbertOrder

/-- Conditions reported by DeveloperError throws in the constructors. -/
inductive DeveloperError
  | lengthRequired
  | bottomOuterRadiusRequired
  | slicesTooSmall
  | offsetAttributeTopUnsupported
  | outerRadiusRequired
  | outerRadiusLessThanInnerRadius
deriving DecidableEq

/-- Runtime failure class: reading an identifier that is declared nowhere
in a strict-mode ES module throws ReferenceError.  The only such site in
the embedded code is the right-lobe texture branch of the SAR builders,
which reads leftHalfAngle, rightHalfAngle, frontHalfAngle and
backHalfAngle. -/
inductive JsRuntimeError
  | referenceErrorHalfAngleIdentifiers
deriving DecidableEq

/-- Primitive topology of an emitted geometry. -/
inductive PrimitiveType
  | TRIANGLES
  | LINES
deriving DecidableEq

/-- Embedded result of a conic or ring createGeometry call.  Vertex
positions, normals, tangents and texture coordinates require trigonometric
values that no settled claim reads, so the record keeps the buffer sizes,
the index buffer, the topology and the bounding sphere (the latter by its
squared radius, see the file header). -/
structure GeometryData where
  vertexCount : ℚ
  indices : List ℚ
  primitiveType : PrimitiveType
  boundingSphereCenter : ℚ × ℚ × ℚ
  boundingSphereRadiusSq : ℚ
deriving DecidableEq

/-- Constructor options of ConicSensorGeometry (fields of the options
object the source reads). -/
structure ConicSensorOptions where
  length : Option ℚ := none
  topInnerRadius : Option ℚ := none
  topOuterRadius : Option ℚ := none
  bottomInnerRadius : Option ℚ := none
  bottomOuterRadius : Option ℚ := none
  thetaSegments : Option ℚ := none
  phiSegments : Option ℚ := none
  thetaStart : Option ℚ := none
  thetaLength : Option ℚ := none
  vertexFormat : Option VertexFormat := none
  offsetAttribute : Option ℚ := none

/-- State stored by the ConicSensorGeometry constructor (the underscore
fields of the instance). -/
structure ConicSensorGeometry where
  length : ℚ
  topInnerRadius : ℚ
  topOuterRadius : ℚ
  bottomInnerRadius : ℚ
  bottomOuterRadius : ℚ
  thetaSegments : ℚ
  phiSegments : ℚ
  thetaStart : ℚ
  thetaLength : ℚ
  vertexFormat : VertexFormat
  offsetAttribute : Option ℚ
deriving DecidableEq

namespace ConicSensorGeometry

/-- The ConicSensorGeometry constructor: defaults, then the debug checks in
source order (length defined, bottomOuterRadius defined, thetaSegments at
least 3, offsetAttribute not TOP). -/
def ofOptions (options : ConicSensorOptions) : Except DeveloperError ConicSensorGeometry :=
  let vertexFormat := options.vertexFormat.getD VertexFormat.DEFAULT
  let topInnerRadius := options.topInnerRadius.getD 0
  let topOuterRadius := options.topOuterRadius.getD 0
  let bottomInnerRadius := options.bottomInnerRadius.getD 0
  let thetaSegments := options.thetaSegments.getD 32
  let phiSegments := options.phiSegments.getD 1
  let thetaStart := options.thetaStart.getD 0
  let thetaLength := options.thetaLength.getD CesiumMath.TWO_PI
  match options.length, options.bottomOuterRadius with
  | none, _ => .error .lengthRequired
  | some _, none => .error .bottomOuterRadiusRequired
  | some length, some bottomOuterRadius =>
    if thetaSegments < 3 then .error .slicesTooSmall
    else if options.offsetAttribute = some GeometryOffsetAttribute.TOP then
      .error .offsetAttributeTopUnsupported
    else
      .ok { length := length, topInnerRadius := topInnerRadius,
            topOuterRadius := topOuterRadius,
            bottomInnerRadius := bottomInnerRadius,
            bottomOuterRadius := bottomOuterRadius,
            thetaSegments := thetaSegments, phiSegments := phiSegments,
            thetaStart := thetaStart, thetaLength := thetaLength,
            vertexFormat := vertexFormat,
            offsetAttribute := options.offsetAttribute }

/-- ConicSensorGeometry.packedLength (same in both source copies). -/
def packedLength : ℕ := VertexFormat.packedLength + 10

/-- ConicSensorGeometry.pack: the vertex format first, then the nine
scalars, then the offsetAttribute with sentinel minus one for undefined. -/
def pack (value : ConicSensorGeometry) : List ℚ :=
  VertexFormat.pack value.vertexFormat ++
    [value.length, value.topInnerRadius, value.topOuterRadius,
     value.bottomInnerRadius, value.bottomOuterRadius, value.thetaSegments,
     value.phiSegments, value.thetaStart, value.thetaLength,
     value.offsetAttribute.getD (-1)]

/-- ConicSensorGeometry.unpack without a result argument: reads the fields
and builds a new instance through the constructor; sentinel minus one turns
back into an absent offsetAttribute. -/
def unpack (a : List ℚ) (startingIndex : ℕ) : Except DeveloperError ConicSensorGeometry :=
  let vertexFormat := VertexFormat.unpack a startingIndex
  let s := startingIndex + VertexFormat.packedLength
  let offsetAttribute := a.getD (s + 9) 0
  ofOptions
    { length := some (a.getD s 0)
      topInnerRadius := some (a.getD (s + 1) 0)
      topOuterRadius := some (a.getD (s + 2) 0)
      bottomInnerRadius := some (a.getD (s + 3) 0)
      bottomOuterRadius := some (a.getD (s + 4) 0)
      thetaSegments := some (a.getD (s + 5) 0)
      phiSegments := some (a.getD (s + 6) 0)
      thetaStart := some (a.getD (s + 7) 0)
      thetaLength := some (a.getD (s + 8) 0)
      vertexFormat := some vertexFormat
      offsetAttribute := if offsetAttribute = -1 then none else some offsetAttribute }

end ConicSensorGeometry

/-- State stored by the ConicSensorOutlineGeometry constructor; the outline
variant has no vertex format. -/
structure ConicSensorOutlineGeometry where
  length : ℚ
  topInnerRadius : ℚ
  topOuterRadius : ℚ
  bottomInnerRadius : ℚ
  bottomOuterRadius : ℚ
  thetaSegments : ℚ
  phiSegments : ℚ
  thetaStart : ℚ
  thetaLength : ℚ
  offsetAttribute : Option ℚ
deriving DecidableEq

namespace ConicSensorOutlineGeometry

/-- ConicSensorOutlineGeometry.packedLength: ten floats, no vertex
format. -/
def packedLength : ℕ := 10

/-- ConicSensorOutlineGeometry.pack: the nine scalars and the sentinel,
position data only, no vertex format. -/
def pack (value : ConicSensorOutlineGeometry) : List ℚ :=
  [value.length, value.topInnerRadius, value.topOuterRadius,
   value.bottomInnerRadius, value.bottomOuterRadius, value.thetaSegments,
   value.phiSegments, value.thetaStart, value.thetaLength,
   value.offsetAttribute.getD (-1)]

end ConicSensorOutlineGeometry

/-- Constructor options of RectangleSensorGeometry.  The source constructor
reads options.topInnerRadius and options.topOuterRadius (see ofOptions), so
those fields are part of the read surface alongside the documented
half-angle fields. -/
structure RectangleSensorOptions where
  length : Option ℚ := none
  leftHalfAngle : Option ℚ := none
  rightHalfAngle : Option ℚ := none
  frontHalfAngle : Option ℚ := none
  backHalfAngle : Option ℚ := none
  topInnerRadius : Option ℚ := none
  topOuterRadius : Option ℚ := none
  vertexFormat : Option VertexFormat := none
  offsetAttribute : Option ℚ := none

/-- State stored by the RectangleSensorGeometry constructor. -/
structure RectangleSensorGeometry where
  length : ℚ
  leftHalfAngle : ℚ
  rightHalfAngle : ℚ
  frontHalfAngle : ℚ
  backHalfAngle : ℚ
  vertexFormat : VertexFormat
  offsetAttribute : Option ℚ
deriving DecidableEq

namespace RectangleSensorGeometry

/-- The RectangleSensorGeometry constructor.  As written in the source, the
four half-angle locals read options.topInnerRadius and
options.topOuterRadius (not the half-angle option fields that unpack
fills), each defaulting to PI_OVER_SIX. -/
def ofOptions (options : RectangleSensorOptions) : Except DeveloperError RectangleSensorGeometry :=
  let vertexFormat := options.vertexFormat.getD VertexFormat.DEFAULT
  let leftHalfAngle := options.topInnerRadius.getD CesiumMath.PI_OVER_SIX
  let rightHalfAngle := options.topOuterRadius.getD CesiumMath.PI_OVER_SIX
  let frontHalfAngle := options.topInnerRadius.getD CesiumMath.PI_OVER_SIX
  let backHalfAngle := options.topOuterRadius.getD CesiumMath.PI_OVER_SIX
  match options.length with
  | none => .error .lengthRequired
  | some length =>
    if options.offsetAttribute = some GeometryOffsetAttribute.TOP then
      .error .offsetAttributeTopUnsupported
    else
      .ok { length := length, leftHalfAngle := leftHalfAngle,
            rightHalfAngle := rightHalfAngle,
            frontHalfAngle := frontHalfAngle, backHalfAngle := backHalfAngle,
            vertexFormat := vertexFormat,
            offsetAttribute := options.offsetAttribute }

/-- RectangleSensorGeometry.packedLength. -/
def packedLength : ℕ := VertexFormat.packedLength + 6

/-- RectangleSensorGeometry.pack: vertex format, length, the four half
angles, then the sentinel. -/
def pack (value : RectangleSensorGeometry) : List ℚ :=
  VertexFormat.pack value.vertexFormat ++
    [value.length, value.leftHalfAngle, value.rightHalfAngle,
     value.frontHalfAngle, value.backHalfAngle,
     value.offsetAttribute.getD (-1)]

/-- RectangleSensorGeometry.unpack without a result argument: fills the
half-angle fields of the scratch options (which has no topInnerRadius or
topOuterRadius entries) and calls the constructor. -/
def unpack (a : List ℚ) (startingIndex : ℕ) : Except DeveloperError RectangleSensorGeometry :=
  let vertexFormat := VertexFormat.unpack a startingIndex
  let s := startingIndex + VertexFormat.packedLength
  let offsetAttribute := a.getD (s + 5) 0
  ofOptions
    { length := some (a.getD s 0)
      leftHalfAngle := some (a.getD (s + 1) 0)
      rightHalfAngle := some (a.getD (s + 2) 0)
      frontHalfAngle := some (a.getD (s + 3) 0)
      backHalfAngle := some (a.getD (s + 4) 0)
      vertexFormat := some vertexFormat
      offsetAttribute := if offsetAttribute = -1 then none else some offsetAttribute }

end RectangleSensorGeometry

namespace ConicSensorGeometry

/-- Index writes attempted by the conic solid createGeometry loops (the
loops are identical in both source copies), in order: top annulus quads,
bottom annulus quads, inner wall quads, outer wall quads, and the two
closing sections when thetaLength is not TWO_PI.  Each quad (a, b, c, d)
emits the triangles (a, b, d) and (b, c, d). -/
def solidIndexWrites (thetaSegments phiSegments thetaLength : ℚ) : List ℚ :=
  let tN := jsCountLt thetaSegments
  let pN := jsCountLt phiSegments
  let top :=
    (List.range pN).flatMap fun j =>
      (List.range tN).flatMap fun i =>
        let segment : ℚ := (i : ℚ) + (j : ℚ) * (thetaSegments + 1)
        [segment, segment + thetaSegments + 1, segment + 1,
         segment + thetaSegments + 1, segment + thetaSegments + 2, segment + 1]
  let bottomStart : ℚ := (phiSegments + 1) * (thetaSegments + 1)
  let bottom :=
    (List.range pN).flatMap fun j =>
      (List.range tN).flatMap fun i =>
        let segment : ℚ := (i : ℚ) + (j : ℚ) * (thetaSegments + 1)
        [bottomStart + segment, bottomStart + segment + thetaSegments + 1,
         bottomStart + segment + 1,
         bottomStart + segment + thetaSegments + 1,
         bottomStart + segment + thetaSegments + 2, bottomStart + segment + 1]
  let innserStart : ℚ := (phiSegments + 1) * (thetaSegments + 1) * 2
  let inner :=
    (List.range tN).flatMap fun i =>
      let a : ℚ := innserStart + (i : ℚ) * 2
      [a, a + 1, a + 2, a + 1, a + 3, a + 2]
  let outerStart : ℚ := innserStart + (thetaSegments + 1) * 2
  let outer :=
    (List.range tN).flatMap fun i =>
      let a : ℚ := outerStart + (i : ℚ) * 2
      [a, a + 1, a + 2, a + 1, a + 3, a + 2]
  let vertexCount : ℚ :=
    (phiSegments + 1) * (thetaSegments + 1) * 2 + (thetaSegments + 1) * 4
  let caps :=
    if thetaLength ≠ CesiumMath.TWO_PI then
      [outerStart, outerStart - 1, outerStart + 1,
       outerStart, outerStart - 2, outerStart - 1,
       innserStart, vertexCount - 1, innserStart + 1,
       innserStart, vertexCount - 2, vertexCount - 1]
    else []
  top ++ bottom ++ inner ++ outer ++ caps

/-- createGeometry of the second source copy (file lines 955 to 1462): the
index allocation carries the factor 3 on the wall term, and the bounding
sphere sits at the origin while the solid spans z in the interval from
minus length to zero. -/
def createGeometryB (g : ConicSensorGeometry) : Option GeometryData :=
  let thetaSegments := max 3 g.thetaSegments
  let phiSegments := max 1 g.phiSegments
  if g.length ≤ 0 ∨ g.topInnerRadius < 0 ∨ g.topOuterRadius < 0 ∨
      g.bottomInnerRadius < 0 ∨ g.bottomOuterRadius = 0 then
    none
  else
    let vertexCount : ℚ :=
      (phiSegments + 1) * (thetaSegments + 1) * 2 + (thetaSegments + 1) * 4
    let numIndices : ℚ :=
      phiSegments * thetaSegments * 2 * 2 * 3 + thetaSegments * 2 * 2 * 3 +
        (if g.thetaLength ≠ CesiumMath.TWO_PI then 4 * 3 else 0)
    some
      { vertexCount := vertexCount
        indices := (solidIndexWrites thetaSegments phiSegments
            g.thetaLength).take (jsArrayLen numIndices)
        primitiveType := .TRIANGLES
        boundingSphereCenter := (0, 0, 0)
        boundingSphereRadiusSq :=
          g.length * g.length +
            max g.topOuterRadius g.bottomOuterRadius *
              max g.topOuterRadius g.bottomOuterRadius }

/-- Midpoint of the frustum on the z axis.  Modelled from the spec: the
specification scenario calls the bounding-sphere center the frustum
midpoint; createGeometryB writes the top ring at z = 0 and the bottom ring
at z = minus length, so the midpoint of that solid is at
z = minus length over two. -/
def frustumMidpoint (g : ConicSensorGeometry) : ℚ × ℚ × ℚ :=
  (0, 0, -g.length / 2)

end ConicSensorGeometry

/-- Embedded result of a SAR createGeometry call.  The positions, the
attribute channels and the bounding sphere involve sine evaluations that no
settled claim reads; the record keeps the precomputed buffer sizes, the
index buffer and the topology. -/
structure SarGeometryData where
  vertexCount : ℕ
  numIndices : ℕ
  indices : List ℕ
  primitiveType : PrimitiveType
deriving DecidableEq

/-- State stored by the SarSensorGeometry constructor. -/
structure SarSensorGeometry where
  length : ℚ
  minLeftAngle : ℚ
  maxLeftAngle : ℚ
  minRightAngle : ℚ
  maxRightAngle : ℚ
  leftWidth : ℚ
  rightWidth : ℚ
  vertexFormat : VertexFormat
  offsetAttribute : Option ℚ
deriving DecidableEq

namespace SarSensorGeometry

/-- The 18 index-buffer entries one SAR solid lobe emits, offset by the
start position of the lobe: four side triangles and the two base
triangles. -/
def lobeIndexBlock (r : ℕ) : List ℕ :=
  [r, r + 2, r + 1, r + 3, r + 5, r + 4, r + 6, r + 8, r + 7,
   r + 9, r + 11, r + 10, r + 12, r + 13, r + 14, r + 12, r + 14, r + 15]

/-- SarSensorGeometry.createGeometry: guard on length, clamp negative
widths to zero, guard on both widths zero, size the buffers up front
(two-lobe sizes overwritten by the single-lobe sizes when one width is
zero), then emit the lobes.  The right-lobe texture branch reads the four
undeclared half-angle identifiers, so reaching it with st requested aborts
with a ReferenceError; the embedded check sits where that branch runs,
after the guards and before the geometry is assembled. -/
def createGeometry (g : SarSensorGeometry) : Except JsRuntimeError (Option SarGeometryData) :=
  if g.length ≤ 0 then .ok none
  else
    let leftWidth := if g.leftWidth < 0 then 0 else g.leftWidth
    let rightWidth := if g.rightWidth < 0 then 0 else g.rightWidth
    if leftWidth = 0 ∧ rightWidth = 0 then .ok none
    else
      let vertexCount : ℕ :=
        if leftWidth = 0 ∨ rightWidth = 0 then 3 * 4 + 4 else (3 * 4 + 4) * 2
      let numIndices : ℕ :=
        if leftWidth = 0 ∨ rightWidth = 0 then 6 * 3 else 6 * 3 * 2
      let leftIndices := if 0 < leftWidth then lobeIndexBlock 0 else []
      let rightStartPositionIndex : ℕ := if 0 < leftWidth then 16 else 0
      if 0 < rightWidth ∧ g.vertexFormat.st then
        .error .referenceErrorHalfAngleIdentifiers
      else
        let rightIndices :=
          if 0 < rightWidth then lobeIndexBlock rightStartPositionIndex else []
        .ok (some
          { vertexCount := vertexCount
            numIndices := numIndices
            indices := leftIndices ++ rightIndices
            primitiveType := .TRIANGLES })

end SarSensorGeometry

/-- State stored by the SarSensorOutlineGeometry constructor. -/
structure SarSensorOutlineGeometry where
  length : ℚ
  minLeftAngle : ℚ
  maxLeftAngle : ℚ
  minRightAngle : ℚ
  maxRightAngle : ℚ
  leftWidth : ℚ
  rightWidth : ℚ
  offsetAttribute : Option ℚ
deriving DecidableEq

namespace SarSensorOutlineGeometry

/-- The 16 line-list entries one SAR outline lobe emits: four edges from
the apex and the base rectangle. -/
def lobeIndexBlock (r : ℕ) : List ℕ :=
  [r, r + 1, r, r + 2, r, r + 3, r, r + 4,
   r + 1, r + 2, r + 2, r + 3, r + 3, r + 4, r + 4, r + 1]

/-- SarSensorOutlineGeometry.createGeometry: same guards and clamping as
the solid variant, sizes 10 vertices and 32 indices for two lobes halved
to 5 and 16 for one lobe, no texture branch. -/
def createGeometry (g : SarSensorOutlineGeometry) : Option SarGeometryData :=
  if g.length ≤ 0 then none
  else
    let leftWidth := if g.leftWidth < 0 then 0 else g.leftWidth
    let rightWidth := if g.rightWidth < 0 then 0 else g.rightWidth
    if leftWidth = 0 ∧ rightWidth = 0 then none
    else
      let vertexCount : ℕ := if leftWidth = 0 ∨ rightWidth = 0 then 5 else 10
      let numIndices : ℕ := if leftWidth = 0 ∨ rightWidth = 0 then 16 else 32
      let leftIndices := if 0 < leftWidth then lobeIndexBlock 0 else []
      let rightStartPositionIndex : ℕ := if 0 < leftWidth then 5 else 0
      let rightIndices :=
        if 0 < rightWidth then lobeIndexBlock rightStartPositionIndex else []
      some
        { vertexCount := vertexCount
          numIndices := numIndices
          indices := leftIndices ++ rightIndices
          primitiveType := .LINES }

end SarSensorOutlineGeometry

/-- Constructor options of RingGeometry and RingOutlineGeometry. -/
structure RingOptions where
  innerRadius : Option ℚ := none
  outerRadius : Option ℚ := none
  thetaSegments : Option ℚ := none
  phiSegments : Option ℚ := none
  thetaStart : Option ℚ := none
  thetaLength : Option ℚ := none
  vertexFormat : Option VertexFormat := none
  offsetAttribute : Option ℚ := none

/-- State stored by the RingGeometry constructor. -/
structure RingGeometry where
  innerRadius : ℚ
  outerRadius : ℚ
  thetaSegments : ℚ
  phiSegments : ℚ
  thetaStart : ℚ
  thetaLength : ℚ
  vertexFormat : VertexFormat
  offsetAttribute : Option ℚ
deriving DecidableEq

namespace RingGeometry

/-- The RingGeometry constructor: innerRadius defaults to zero,
Check.typeOf.number throws when outerRadius is undefined, and a
DeveloperError is thrown when outerRadius is below innerRadius.  There is
no check on the segment counts. -/
def ofOptions (options : RingOptions) : Except DeveloperError RingGeometry :=
  let innerRadius := options.innerRadius.getD 0
  match options.outerRadius with
  | none => .error .outerRadiusRequired
  | some outerRadius =>
    if outerRadius < innerRadius then .error .outerRadiusLessThanInnerRadius
    else
      .ok { innerRadius := innerRadius, outerRadius := outerRadius,
            thetaSegments := options.thetaSegments.getD 32,
            phiSegments := options.phiSegments.getD 1,
            thetaStart := options.thetaStart.getD 0,
            thetaLength := options.thetaLength.getD CesiumMath.TWO_PI,
            vertexFormat := options.vertexFormat.getD VertexFormat.DEFAULT,
            offsetAttribute := options.offsetAttribute }

/-- Triangle index writes of RingGeometry.createGeometry: each grid quad
(a, b, c, d) emits (a, b, d) and (b, c, d). -/
def quadIndexWrites (thetaSegments phiSegments : ℚ) : List ℚ :=
  (List.range (jsCountLt phiSegments)).flatMap fun j =>
    (List.range (jsCountLt thetaSegments)).flatMap fun i =>
      let segment : ℚ := (i : ℚ) + (j : ℚ) * (thetaSegments + 1)
      [segment, segment + thetaSegments + 1, segment + 1,
       segment + thetaSegments + 1, segment + thetaSegments + 2, segment + 1]

/-- RingGeometry.createGeometry: clamps the segment counts (silently, with
no error), always returns a geometry, and always attaches the constant
bounding sphere centered at the origin with radius the square root of
two. -/
def createGeometry (g : RingGeometry) : GeometryData :=
  let thetaSegments := max 3 g.thetaSegments
  let phiSegments := max 1 g.phiSegments
  let vertexCount : ℚ := (phiSegments + 1) * (thetaSegments + 1)
  let numIndices : ℚ := phiSegments * thetaSegments * 2 * 3
  { vertexCount := vertexCount
    indices := (quadIndexWrites thetaSegments phiSegments).take
      (jsArrayLen numIndices)
    primitiveType := .TRIANGLES
    boundingSphereCenter := (0, 0, 0)
    boundingSphereRadiusSq := 2 }

end RingGeometry

/-- State stored by the RingOutlineGeometry constructor (no vertex
format). -/
structure RingOutlineGeometry where
  innerRadius : ℚ
  outerRadius : ℚ
  thetaSegments : ℚ
  phiSegments : ℚ
  thetaStart : ℚ
  thetaLength : ℚ
  offsetAttribute : Option ℚ
deriving DecidableEq

namespace RingOutlineGeometry

/-- The RingOutlineGeometry constructor: same validation as the solid
ring. -/
def ofOptions (options : RingOptions) : Except DeveloperError RingOutlineGeometry :=
  let innerRadius := options.innerRadius.getD 0
  match options.outerRadius with
  | none => .error .outerRadiusRequired
  | some outerRadius =>
    if outerRadius < innerRadius then .error .outerRadiusLessThanInnerRadius
    else
      .ok { innerRadius := innerRadius, outerRadius := outerRadius,
            thetaSegments := options.thetaSegments.getD 32,
            phiSegments := options.phiSegments.getD 1,
            thetaStart := options.thetaStart.getD 0,
            thetaLength := options.thetaLength.getD CesiumMath.TWO_PI,
            offsetAttribute := options.offsetAttribute }

/-- Line index writes of RingOutlineGeometry.createGeometry: per grid quad
the source emits the segments (a, b), (d, a) and (c, b). -/
def lineIndexWrites (thetaSegments phiSegments : ℚ) : List ℚ :=
  (List.range (jsCountLt phiSegments)).flatMap fun j =>
    (List.range (jsCountLt thetaSegments)).flatMap fun i =>
      let segment : ℚ := (i : ℚ) + (j : ℚ) * (thetaSegments + 1)
      [segment, segment + thetaSegments + 1, segment + 1,
       segment, segment + thetaSegments + 2, segment + thetaSegments + 1]

/-- RingOutlineGeometry.createGeometry: same silent clamping, always
returns a geometry, line topology, and the same constant bounding
sphere. -/
def createGeometry (g : RingOutlineGeometry) : GeometryData :=
  let thetaSegments := max 3 g.thetaSegments
  let phiSegments := max 1 g.phiSegments
  let vertexCount : ℚ := (phiSegments + 1) * (thetaSegments + 1)
  let numIndices : ℚ := phiSegments * thetaSegments * 6
  { vertexCount := vertexCount
    indices := (lineIndexWrites thetaSegments phiSegments).take
      (jsArrayLen numIndices)
    primitiveType := .LINES
    boundingSphereCenter := (0, 0, 0)
    boundingSphereRadiusSq := 2 }

end RingOutlineGeometry

/-! Concrete instances used by the claim theorems, counterexamples and
witnesses. -/

/-- Options of the specification scenario for the cone frustum. -/
def coneScenarioOptions : ConicSensorOptions :=
  { length := some 200000, topOuterRadius := some 80000,
    bottomOuterRadius := some 200000, thetaSegments := some 32,
    phiSegments := some 1 }

/-- The cone the specification scenario constructs. -/
def coneScenario : ConicSensorGeometry :=
  { length := 200000, topInnerRadius := 0, topOuterRadius := 80000,
    bottomInnerRadius := 0, bottomOuterRadius := 200000, thetaSegments := 32,
    phiSegments := 1, thetaStart := 0, thetaLength := CesiumMath.TWO_PI,
    vertexFormat := VertexFormat.DEFAULT, offsetAttribute := none }

/-- A rectangle sensor whose half angles differ from the PI_OVER_SIX
default; it is reachable through the constructor because the constructor
reads topInnerRadius and topOuterRadius. -/
def rectSample : RectangleSensorGeometry :=
  { length := 10, leftHalfAngle := 1, rightHalfAngle := 2,
    frontHalfAngle := 1, backHalfAngle := 2,
    vertexFormat := VertexFormat.DEFAULT, offsetAttribute := none }

/-- A SAR sensor with only the left lobe active and the default vertex
format. -/
def sarLeftOnly : SarSensorGeometry :=
  { length := 200000, minLeftAngle := CesiumMath.PI_OVER_SIX,
    maxLeftAngle := CesiumMath.PI_OVER_FOUR,
    minRightAngle := CesiumMath.PI_OVER_SIX,
    maxRightAngle := CesiumMath.PI_OVER_FOUR, leftWidth := 2000,
    rightWidth := 0, vertexFormat := VertexFormat.DEFAULT,
    offsetAttribute := none }

/-- The mesh sarLeftOnly produces. -/
def sarLeftOnlyMesh : SarGeometryData :=
  { vertexCount := 16, numIndices := 18,
    indices := SarSensorGeometry.lobeIndexBlock 0,
    primitiveType := .TRIANGLES }

/-- A SAR sensor with the right lobe active and texture coordinates
requested. -/
def sarRightSt : SarSensorGeometry :=
  { length := 200000, minLeftAngle := CesiumMath.PI_OVER_SIX,
    maxLeftAngle := CesiumMath.PI_OVER_FOUR,
    minRightAngle := CesiumMath.PI_OVER_SIX,
    maxRightAngle := CesiumMath.PI_OVER_FOUR, leftWidth := 2000,
    rightWidth := 1000, vertexFormat := VertexFormat.DEFAULT,
    offsetAttribute := none }

/-- A SAR outline sensor with both lobes active. -/
def sarOutlineBoth : SarSensorOutlineGeometry :=
  { length := 200000, minLeftAngle := CesiumMath.PI_OVER_SIX,
    maxLeftAngle := CesiumMath.PI_OVER_FOUR,
    minRightAngle := CesiumMath.PI_OVER_SIX,
    maxRightAngle := CesiumMath.PI_OVER_FOUR, leftWidth := 2000,
    rightWidth := 2000, offsetAttribute := none }

/-- The mesh sarOutlineBoth produces. -/
def sarOutlineBothMesh : SarGeometryData :=
  { vertexCount := 10, numIndices := 32,
    indices := SarSensorOutlineGeometry.lobeIndexBlock 0 ++
      SarSensorOutlineGeometry.lobeIndexBlock 5,
    primitiveType := .LINES }

/-- Ring options with thetaSegments below the documented minimum of 3. -/
def ringLowSegOptions : RingOptions :=
  { innerRadius := some 50, outerRadius := some 100, thetaSegments := some 2 }

/-- The ring the constructor accepts from ringLowSegOptions. -/
def ringLowSeg : RingGeometry :=
  { innerRadius := 50, outerRadius := 100, thetaSegments := 2,
    phiSegments := 1, thetaStart := 0, thetaLength := CesiumMath.TWO_PI,
    vertexFormat := VertexFormat.DEFAULT, offsetAttribute := none }

/-- Ring options with outerRadius below innerRadius. -/
def ringBadOptions : RingOptions :=
  { innerRadius := some 10, outerRadius := some 5 }

/-- Helper: a clamped width is zero or positive. -/
theorem clamp_cases (w : ℚ) :
    (if w < 0 then (0:ℚ) else w) = 0 ∨ 0 < (if w < 0 then (0:ℚ) else w) := by
  split_ifs with h
  · left; rfl
  · rcases lt_or_eq_of_le (not_lt.mp h) with h1 | h1
    · right; exact h1
    · left; exact h1.symm


/-- Helper: a clamped width is nonnegative. -/
theorem clamp_nonneg (w : ℚ) : 0 ≤ (if w < 0 then (0:ℚ) else w) := by
  split_ifs with h
  · exact le_refl 0
  · exact le_of_not_lt h

/-- The ceiling cast of the rational default segment count. -/
theorem jsCountLt_32 : jsCountLt 32 = 32 := by norm_num [jsCountLt]

/-- The ceiling cast of the rational default ring count. -/
theorem jsCountLt_1 : jsCountLt 1 = 1 := by norm_num [jsCountLt]

set_option maxRecDepth 10000 in
/-- The conic solid loops attempt 768 index writes at the default segment
counts with a full-circle sweep (192 each for the top, bottom, inner wall
and outer wall, and no closing caps). -/
theorem solidWrites_length :
    (ConicSensorGeometry.solidIndexWrites 32 1 CesiumMath.TWO_PI).length = 768 := by
  simp only [ConicSensorGeometry.solidIndexWrites, jsCountLt_32, jsCountLt_1]
  rw [if_neg (fun h => h rfl)]
  rfl

/-- Taking the 512 allocated entries of the 768 attempted writes leaves 512
entries. -/
theorem takenLengthA :
    ((ConicSensorGeometry.solidIndexWrites 32 1 CesiumMath.TWO_PI).take 512).length
      = 512 := by
  rw [List.length_take, solidWrites_length]
  decide

/-- Taking the 768 allocated entries keeps all 768 writes. -/
theorem takenLengthB :
    ((ConicSensorGeometry.solidIndexWrites 32 1 CesiumMath.TWO_PI).take 768).length
      = 768 := by
  rw [List.length_take, solidWrites_length]
  decide

/-! Claim theorems. -/

/-- C1: the round-trip law unpack after pack fails as a universal claim
over every shape: RectangleSensorGeometry is a counterexample, because its
constructor reads options.topInnerRadius and options.topOuterRadius while
unpack fills the half-angle option fields, so the unpacked instance gets
the PI_OVER_SIX defaults instead of the packed half angles.  The conic
shape singled out by the claim does round-trip, shown here at the
specification scenario instance. -/
theorem claim_C1 :
    RectangleSensorGeometry.ofOptions
        { length := some 10, topInnerRadius := some 1, topOuterRadius := some 2 }
      = .ok rectSample ∧
    (RectangleSensorGeometry.unpack (RectangleSensorGeometry.pack rectSample) 0).map
        (fun r => r.leftHalfAngle) = .ok CesiumMath.PI_OVER_SIX ∧
    CesiumMath.PI_OVER_SIX ≠ rectSample.leftHalfAngle ∧
    ConicSensorGeometry.unpack (ConicSensorGeometry.pack coneScenario) 0
      = .ok coneScenario := by
  refine ⟨?_, ?_, ?_, ?_⟩
  · norm_num [RectangleSensorGeometry.ofOptions, rectSample]
    exact fun hc => Option.noConfusion hc
  · norm_num [RectangleSensorGeometry.unpack, RectangleSensorGeometry.pack,
      RectangleSensorGeometry.ofOptions, rectSample, VertexFormat.pack,
      VertexFormat.unpack, VertexFormat.packedLength, VertexFormat.DEFAULT,
      List.getD, Except.map]
    rw [if_neg (show ¬((none : Option ℚ) = some GeometryOffsetAttribute.TOP) from
      fun hc => Option.noConfusion hc)]
  · norm_num [CesiumMath.PI_OVER_SIX, CesiumMath.PI, rectSample]
  · norm_num [ConicSensorGeometry.unpack, ConicSensorGeometry.pack,
      ConicSensorGeometry.ofOptions, coneScenario, VertexFormat.pack,
      VertexFormat.unpack, VertexFormat.packedLength, VertexFormat.DEFAULT,
      List.getD]
    exact fun hc => Option.noConfusion hc

/-- C2: for every level in 1..8 and every pair of coordinates below
2 to the level, decode2D inverts encode2D and the encoded index is below
4 to the level (instantiating the all-levels round-trip theorem). -/
theorem claim_C2 :
    ∀ level : ℕ, 1 ≤ level → level ≤ 8 →
      ∀ x y : ℕ, x < 2 ^ level → y < 2 ^ level →
        HilbertOrder.decode2D level (HilbertOrder.encode2D level x y) = (x, y) ∧
          HilbertOrder.encode2D level x y < 4 ^ level :=
  fun level _ _ x y hx hy => HilbertOrder.decode2D_encode2D level x y hx hy

/-- Witness for C2 at level 3, x = 5, y = 6. -/
theorem claim_C2_witness :
    ((1:ℕ) ≤ 3 ∧ (3:ℕ) ≤ 8 ∧ 5 < 2 ^ 3 ∧ 6 < 2 ^ 3) ∧
    (HilbertOrder.decode2D 3 (HilbertOrder.encode2D 3 5 6) = (5, 6) ∧
      HilbertOrder.encode2D 3 5 6 < 4 ^ 3) :=
  ⟨by decide, claim_C2 3 (by decide) (by decide) 5 6 (by decide) (by decide)⟩

/-- Counterexample for C5: at the specification scenario the bounding
sphere of the second conic copy is centered at the origin, not at the
frustum midpoint (0, 0, minus length over two). -/
theorem claim_C5_counterexample :
    (ConicSensorGeometry.createGeometryB coneScenario).map
        (fun m => m.boundingSphereCenter) = some (0, 0, 0) ∧
    ConicSensorGeometry.frustumMidpoint coneScenario = (0, 0, -100000) ∧
    ((0, 0, 0) : ℚ × ℚ × ℚ) ≠ (0, 0, -100000) := by
  refine ⟨?_, ?_, ?_⟩
  · have hguard : ¬(coneScenario.length ≤ 0 ∨ coneScenario.topInnerRadius < 0 ∨
        coneScenario.topOuterRadius < 0 ∨ coneScenario.bottomInnerRadius < 0 ∨
        coneScenario.bottomOuterRadius = 0) := by norm_num [coneScenario]
    simp only [ConicSensorGeometry.createGeometryB]
    rw [if_neg hguard]
    simp
  · norm_num [ConicSensorGeometry.frustumMidpoint, coneScenario, Prod.ext_iff]
  · simp [Prod.ext_iff]

/-- C5 as amended: the scenario build returns a mesh whose squared
bounding-sphere radius is length squared plus the larger outer radius
squared, whose center is the origin (not the frustum midpoint), and whose
index count is three times the claimed 256 triangles. -/
theorem claim_C5 :
    ConicSensorGeometry.ofOptions coneScenarioOptions = .ok coneScenario ∧
    (ConicSensorGeometry.createGeometryB coneScenario).map
        (fun m => (m.boundingSphereRadiusSq, m.boundingSphereCenter,
          m.indices.length, m.primitiveType))
      = some ((200000:ℚ) * 200000 + (max 80000 200000) * (max 80000 200000),
          (0, 0, 0), 3 * 256, PrimitiveType.TRIANGLES) ∧
    (1 * 32 * 2 * 2 + 32 * 2 * 2 : ℕ) = 256 := by
  refine ⟨?_, ?_, by norm_num⟩
  · norm_num [ConicSensorGeometry.ofOptions, coneScenarioOptions, coneScenario]
    exact fun hc => Option.noConfusion hc
  · have hguard : ¬(coneScenario.length ≤ 0 ∨ coneScenario.topInnerRadius < 0 ∨
        coneScenario.topOuterRadius < 0 ∨ coneScenario.bottomInnerRadius < 0 ∨
        coneScenario.bottomOuterRadius = 0) := by norm_num [coneScenario]
    simp only [ConicSensorGeometry.createGeometryB]
    rw [if_neg hguard]
    norm_num [coneScenario, max_def, jsArrayLen, List.length_take,
      solidWrites_length, min_def]
    decide

/-- C6: for both SAR builders the emitted index list fills exactly the
precomputed index count; with one clamped width zero the sizes are the
single-lobe pair (16 vertices, 18 indices for the solid; 5, 16 for the
outline), exactly half the both-lobes pair (32, 36; 10, 32), and with both
clamped widths nonzero the sizes are the both-lobes pair. -/
theorem claim_C6 :
    (∀ g : SarSensorGeometry, ∀ m : SarGeometryData,
        SarSensorGeometry.createGeometry g = .ok (some m) →
          m.indices.length = m.numIndices ∧
          (((if g.leftWidth < 0 then (0:ℚ) else g.leftWidth) = 0 ∨
              (if g.rightWidth < 0 then (0:ℚ) else g.rightWidth) = 0) →
            (m.vertexCount, m.numIndices) = (16, 18) ∧
              (2 * m.vertexCount, 2 * m.numIndices) = (32, 36)) ∧
          (((if g.leftWidth < 0 then (0:ℚ) else g.leftWidth) ≠ 0 ∧
              (if g.rightWidth < 0 then (0:ℚ) else g.rightWidth) ≠ 0) →
            (m.vertexCount, m.numIndices) = (32, 36))) ∧
    (∀ g : SarSensorOutlineGeometry, ∀ m : SarGeometryData,
        SarSensorOutlineGeometry.createGeometry g = some m →
          m.indices.length = m.numIndices ∧
          (((if g.leftWidth < 0 then (0:ℚ) else g.leftWidth) = 0 ∨
              (if g.rightWidth < 0 then (0:ℚ) else g.rightWidth) = 0) →
            (m.vertexCount, m.numIndices) = (5, 16) ∧
              (2 * m.vertexCount, 2 * m.numIndices) = (10, 32)) ∧
          (((if g.leftWidth < 0 then (0:ℚ) else g.leftWidth) ≠ 0 ∧
              (if g.rightWidth < 0 then (0:ℚ) else g.rightWidth) ≠ 0) →
            (m.vertexCount, m.numIndices) = (10, 32))) := by
  constructor
  · intro g m h
    simp only [SarSensorGeometry.createGeometry] at h
    by_cases hlen : g.length ≤ 0
    · rw [if_pos hlen] at h
      exact Option.noConfusion (Except.ok.inj h)
    · rw [if_neg hlen] at h
      rcases clamp_cases g.leftWidth with hL | hL <;>
        rcases clamp_cases g.rightWidth with hR | hR
      · rw [if_pos ⟨hL, hR⟩] at h
        exact Option.noConfusion (Except.ok.inj h)
      · simp [hL, hR, hR.ne'] at h
        split_ifs at h with hst
        simp only [Except.ok.injEq, Option.some.injEq] at h
        subst h
        exact ⟨rfl, fun _ => ⟨rfl, rfl⟩, fun hboth => absurd hL hboth.1⟩
      · simp [hL, hL.ne', hR] at h
        subst h
        exact ⟨rfl, fun _ => ⟨rfl, rfl⟩, fun hboth => absurd hR hboth.2⟩
      · simp [hL, hL.ne', hR, hR.ne'] at h
        split_ifs at h with hst
        simp only [Except.ok.injEq, Option.some.injEq] at h
        subst h
        exact ⟨rfl, fun hone => hone.elim (fun hc => absurd hc hL.ne')
          (fun hc => absurd hc hR.ne'), fun _ => rfl⟩
  · intro g m h
    simp only [SarSensorOutlineGeometry.createGeometry] at h
    by_cases hlen : g.length ≤ 0
    · rw [if_pos hlen] at h
      exact Option.noConfusion h
    · rw [if_neg hlen] at h
      rcases clamp_cases g.leftWidth with hL | hL <;>
        rcases clamp_cases g.rightWidth with hR | hR
      · rw [if_pos ⟨hL, hR⟩] at h
        exact Option.noConfusion h
      · simp [hL, hR, hR.ne'] at h
        subst h
        exact ⟨rfl, fun _ => ⟨rfl, rfl⟩, fun hboth => absurd hL hboth.1⟩
      · simp [hL, hL.ne', hR] at h
        subst h
        exact ⟨rfl, fun _ => ⟨rfl, rfl⟩, fun hboth => absurd hR hboth.2⟩
      · simp [hL, hL.ne', hR, hR.ne'] at h
        subst h
        exact ⟨rfl, fun hone => hone.elim (fun hc => absurd hc hL.ne')
          (fun hc => absurd hc hR.ne'), fun _ => rfl⟩

/-- Witness for C6: the left-lobe-only solid sensor yields the halved
sizes 16 and 18, and the both-lobes outline sensor yields 10 and 32. -/
theorem claim_C6_witness :
    SarSensorGeometry.createGeometry sarLeftOnly = .ok (some sarLeftOnlyMesh) ∧
    (sarLeftOnlyMesh.vertexCount, sarLeftOnlyMesh.numIndices) = (16, 18) ∧
    (2 * sarLeftOnlyMesh.vertexCount, 2 * sarLeftOnlyMesh.numIndices) = (32, 36) ∧
    SarSensorOutlineGeometry.createGeometry sarOutlineBoth = some sarOutlineBothMesh ∧
    (sarOutlineBothMesh.vertexCount, sarOutlineBothMesh.numIndices) = (10, 32) := by
  have h1 : SarSensorGeometry.createGeometry sarLeftOnly = .ok (some sarLeftOnlyMesh) := by
    norm_num [SarSensorGeometry.createGeometry, sarLeftOnly, sarLeftOnlyMesh,
      VertexFormat.DEFAULT]
  have h2 : SarSensorOutlineGeometry.createGeometry sarOutlineBoth
      = some sarOutlineBothMesh := by
    norm_num [SarSensorOutlineGeometry.createGeometry, sarOutlineBoth,
      sarOutlineBothMesh]
  have hhalf := (claim_C6.1 sarLeftOnly sarLeftOnlyMesh h1).2.1
    (by norm_num [sarLeftOnly])
  have hboth := (claim_C6.2 sarOutlineBoth sarOutlineBothMesh h2).2.2
    (by norm_num [sarOutlineBoth])
  exact ⟨h1, hhalf.1, hhalf.2, h2, hboth⟩

/-- Counterexample for C7: thetaSegments below 3 does not raise a failure:
the constructor accepts 2 unchanged and createGeometry silently clamps it
to 3, producing the 2-by-4 vertex grid of a 3-segment ring. -/
theorem claim_C7_counterexample :
    RingGeometry.ofOptions ringLowSegOptions = .ok ringLowSeg ∧
    ringLowSeg.thetaSegments = 2 ∧
    (RingGeometry.createGeometry ringLowSeg).vertexCount = 8 ∧
    ((8:ℚ) = (1 + 1) * (3 + 1) ∧ (8:ℚ) ≠ (1 + 1) * (2 + 1)) := by
  refine ⟨?_, rfl, ?_, by norm_num, by norm_num⟩
  · norm_num [RingGeometry.ofOptions, ringLowSegOptions, ringLowSeg]
  · norm_num [RingGeometry.createGeometry, ringLowSeg, max_def]

/-- C7 as amended: outerRadius below innerRadius is rejected with a
DeveloperError by both ring constructors, but thetaSegments below 3 is not
rejected: the constructor stores it unchanged and createGeometry silently
clamps the counts, its vertex grid always using max 3 thetaSegments and
max 1 phiSegments. -/
theorem claim_C7 :
    (∀ options : RingOptions, ∀ inner outer : ℚ,
        options.innerRadius = some inner → options.outerRadius = some outer →
        outer < inner →
        RingGeometry.ofOptions options = .error .outerRadiusLessThanInnerRadius ∧
        RingOutlineGeometry.ofOptions options = .error .outerRadiusLessThanInnerRadius) ∧
    (∀ options : RingOptions, ∀ g : RingGeometry,
        RingGeometry.ofOptions options = .ok g →
        g.thetaSegments = options.thetaSegments.getD 32) ∧
    (∀ g : RingGeometry,
        (RingGeometry.createGeometry g).vertexCount =
          (max 1 g.phiSegments + 1) * (max 3 g.thetaSegments + 1)) := by
  refine ⟨?_, ?_, fun g => rfl⟩
  · intro options inner outer hi ho hlt
    constructor
    · simp [RingGeometry.ofOptions, hi, ho, hlt]
    · simp [RingOutlineGeometry.ofOptions, hi, ho, hlt]
  · intro options g h
    simp only [RingGeometry.ofOptions] at h
    rcases ho : options.outerRadius with _ | outer
    · simp only [ho] at h
      exact Except.noConfusion h
    · simp only [ho] at h
      split_ifs at h
      rw [Except.ok.injEq] at h
      subst h
      rfl

/-- Witness for C7: the inverted-radii options are rejected by both ring
constructors, while the 2-segment options are accepted unchanged and the
builder clamps. -/
theorem claim_C7_witness :
    (ringBadOptions.innerRadius = some 10 ∧ ringBadOptions.outerRadius = some 5 ∧
      (5:ℚ) < 10) ∧
    RingGeometry.ofOptions ringBadOptions = .error .outerRadiusLessThanInnerRadius ∧
    RingOutlineGeometry.ofOptions ringBadOptions
      = .error .outerRadiusLessThanInnerRadius ∧
    (RingGeometry.ofOptions ringLowSegOptions = .ok ringLowSeg ∧
      ringLowSeg.thetaSegments = ringLowSegOptions.thetaSegments.getD 32) ∧
    (RingGeometry.createGeometry ringLowSeg).vertexCount =
      (max 1 ringLowSeg.phiSegments + 1) * (max 3 ringLowSeg.thetaSegments + 1) := by
  have hbad := claim_C7.1 ringBadOptions 10 5 rfl rfl (by norm_num)
  have hok : RingGeometry.ofOptions ringLowSegOptions = .ok ringLowSeg := by
    norm_num [RingGeometry.ofOptions, ringLowSegOptions, ringLowSeg]
  exact ⟨⟨rfl, rfl, by norm_num⟩, hbad.1, hbad.2,
    ⟨hok, claim_C7.2.1 ringLowSegOptions ringLowSeg hok⟩,
    claim_C7.2.2 ringLowSeg⟩

/-- C8: the outline conic variant packs 10 floats with no vertex-format
data (the nine scalars and the sentinel only), while the solid variant
packs VertexFormat.packedLength + 10 floats with the vertex format first;
this holds for every instance. -/
theorem claim_C8 :
    ConicSensorOutlineGeometry.packedLength = 10 ∧
    ConicSensorGeometry.packedLength = VertexFormat.packedLength + 10 ∧
    (∀ v : ConicSensorOutlineGeometry,
        (ConicSensorOutlineGeometry.pack v).length = 10 ∧
        ConicSensorOutlineGeometry.pack v =
          [v.length, v.topInnerRadius, v.topOuterRadius, v.bottomInnerRadius,
           v.bottomOuterRadius, v.thetaSegments, v.phiSegments, v.thetaStart,
           v.thetaLength, v.offsetAttribute.getD (-1)]) ∧
    (∀ v : ConicSensorGeometry,
        (ConicSensorGeometry.pack v).length = VertexFormat.packedLength + 10 ∧
        (ConicSensorGeometry.pack v).take VertexFormat.packedLength =
          VertexFormat.pack v.vertexFormat) :=
  ⟨rfl, rfl, fun _ => ⟨rfl, rfl⟩, fun _ => ⟨rfl, rfl⟩⟩

/-- C9: both ring builders attach the same constant bounding sphere,
centered at the origin with squared radius 2, for every constructed
instance. -/
theorem claim_C9 :
    ∀ (g : RingGeometry) (go : RingOutlineGeometry),
      (RingGeometry.createGeometry g).boundingSphereCenter = (0, 0, 0) ∧
      (RingGeometry.createGeometry g).boundingSphereRadiusSq = 2 ∧
      (RingOutlineGeometry.createGeometry go).boundingSphereCenter = (0, 0, 0) ∧
      (RingOutlineGeometry.createGeometry go).boundingSphereRadiusSq = 2 :=
  fun _ _ => ⟨rfl, rfl, rfl, rfl⟩

/-- C10: whenever the clamped right width is positive and texture
coordinates are requested, the SAR solid builder reaches the right-lobe
texture branch with its unbound half-angle identifiers and aborts with the
ReferenceError instead of returning a geometry. -/
theorem claim_C10 :
    ∀ g : SarSensorGeometry,
      0 < g.length →
      0 < (if g.rightWidth < 0 then (0:ℚ) else g.rightWidth) →
      g.vertexFormat.st = true →
      SarSensorGeometry.createGeometry g
        = .error .referenceErrorHalfAngleIdentifiers := by
  intro g hl hr hst
  have h1 : ¬ g.length ≤ 0 := not_le.mpr hl
  have h2 : ¬((if g.leftWidth < 0 then (0:ℚ) else g.leftWidth) = 0 ∧
      (if g.rightWidth < 0 then (0:ℚ) else g.rightWidth) = 0) :=
    fun hc => hr.ne' hc.2
  simp only [SarSensorGeometry.createGeometry]
  rw [if_neg h1, if_neg h2, if_pos ⟨hr, hst⟩]

/-- Witness for C10: the sensor with both widths positive and the default
vertex format (which requests st) aborts with the ReferenceError. -/
theorem claim_C10_witness :
    (0 < sarRightSt.length ∧
      0 < (if sarRightSt.rightWidth < 0 then (0:ℚ) else sarRightSt.rightWidth) ∧
      sarRightSt.vertexFormat.st = true) ∧
    SarSensorGeometry.createGeometry sarRightSt
      = .error .referenceErrorHalfAngleIdentifiers := by
  have hl : 0 < sarRightSt.length := by norm_num [sarRightSt]
  have hr : 0 < (if sarRightSt.rightWidth < 0 then (0:ℚ) else sarRightSt.rightWidth) := by
    norm_num [sarRightSt]
  have hst : sarRightSt.vertexFormat.st = true := rfl
  exact ⟨⟨hl, hr, hst⟩, claim_C10 sarRightSt hl hr hst⟩
